import Mathlib

/-!
Shallow embedding of the pulse-capture core of `LeituraPulsos.ino`
(ESP32 pulse reader with adaptive debounce).

All capture/debounce variables in the source are 32-bit `unsigned long`
(ESP32); we model them as `Nat` with explicit reduction modulo `2^32`
wherever the C arithmetic can wrap (unsigned subtraction in the interrupt
handler, the running sum over the history, the counter increment, and the
smoothing blend).  `pulseHistory` is a C array of 5 slots, modelled as a
`List Nat` whose length is 5 in every reachable state.
-/

namespace LeituraPulsos

/-- `2^32`: modulus of the 32-bit `unsigned long` arithmetic on the ESP32. -/
def UINT32_MOD : Nat := 4294967296

/-- `#define DEBOUNCE_TIME_US_MIN 100` -/
def DEBOUNCE_TIME_US_MIN : Nat := 100

/-- `#define DEBOUNCE_TIME_US_MAX 5000` -/
def DEBOUNCE_TIME_US_MAX : Nat := 5000

/-- `#define DEBOUNCE_TIME_US_DEFAULT 1000` -/
def DEBOUNCE_TIME_US_DEFAULT : Nat := 1000

/-- The capture/debounce state shared between the ISR and the main loop:
`pulseCount`, `lastPulseTime`, `pulseInterval`, `newPulseReceived`,
`currentDebounceTime`, `pulseHistory[5]`, `historyIndex`. -/
structure SystemState where
  pulseCount : Nat
  lastPulseTime : Nat
  pulseInterval : Nat
  newPulseReceived : Bool
  currentDebounceTime : Nat
  pulseHistory : List Nat
  historyIndex : Nat
deriving DecidableEq

/-- The state at boot: all counters zero, threshold at its default,
history all-zero (the global initializers of the sketch). -/
def initialState : SystemState :=
  { pulseCount := 0
    lastPulseTime := 0
    pulseInterval := 0
    newPulseReceived := false
    currentDebounceTime := DEBOUNCE_TIME_US_DEFAULT
    pulseHistory := List.replicate 5 0
    historyIndex := 0 }

/-- 32-bit unsigned subtraction `a - b` (C semantics: wraps modulo `2^32`). -/
def usub32 (a b : Nat) : Nat :=
  (a + (UINT32_MOD - b % UINT32_MOD)) % UINT32_MOD

/-- Number of non-zero history slots, as counted by the loop in
`updateAdaptiveDebounce` (`validCount`). -/
def validCount (h : List Nat) : Nat :=
  (h.filter (fun x => decide (0 < x))).length

/-- The running `sum` over the non-zero history slots in
`updateAdaptiveDebounce`; accumulated in a 32-bit unsigned, hence reduced
modulo `2^32`. -/
def historySum (h : List Nat) : Nat :=
  (h.filter (fun x => decide (0 < x))).sum % UINT32_MOD

/-- `averageInterval = sum / validCount` (integer division). -/
def averageInterval (h : List Nat) : Nat :=
  historySum h / validCount h

/-- The clamping of `newDebounce` into `[DEBOUNCE_TIME_US_MIN,
DEBOUNCE_TIME_US_MAX]` performed by the two `if` statements in
`updateAdaptiveDebounce`. -/
def clampDebounce (n : Nat) : Nat :=
  if n < DEBOUNCE_TIME_US_MIN then DEBOUNCE_TIME_US_MIN
  else if n > DEBOUNCE_TIME_US_MAX then DEBOUNCE_TIME_US_MAX
  else n

/-- `updateAdaptiveDebounce()`: if at least 2 history slots are non-zero,
set `currentDebounceTime = (currentDebounceTime * 7 + newDebounce * 3) / 10`
where `newDebounce` is `averageInterval / 12` clamped into bounds; otherwise
leave the state untouched.  The products and the sum are 32-bit unsigned. -/
def updateAdaptiveDebounce (s : SystemState) : SystemState :=
  if validCount s.pulseHistory ≥ 2 then
    let newDebounce := clampDebounce (averageInterval s.pulseHistory / 12)
    { s with currentDebounceTime :=
        (s.currentDebounceTime * 7 % UINT32_MOD + newDebounce * 3 % UINT32_MOD)
          % UINT32_MOD / 10 }
  else s

/-- The state just before the call to `updateAdaptiveDebounce()` inside an
accepted edge: interval recorded, timestamp updated, interval pushed into
the circular history slot `historyIndex`, index advanced modulo 5. -/
def midEdgeState (currentTime : Nat) (s : SystemState) : SystemState :=
  { s with pulseInterval := usub32 currentTime s.lastPulseTime
           lastPulseTime := currentTime
           pulseHistory := s.pulseHistory.set s.historyIndex
             (usub32 currentTime s.lastPulseTime)
           historyIndex := (s.historyIndex + 1) % 5 }

/-- The full effect of an accepted edge: the history/timestamp updates of
`midEdgeState`, then `updateAdaptiveDebounce()`, then `pulseCount++` and
`newPulseReceived = true`. -/
def acceptEdge (currentTime : Nat) (s : SystemState) : SystemState :=
  { updateAdaptiveDebounce (midEdgeState currentTime s) with
      pulseCount :=
        ((updateAdaptiveDebounce (midEdgeState currentTime s)).pulseCount + 1)
          % UINT32_MOD
      newPulseReceived := true }

/-- `pulseInterrupt()` with the captured `micros()` value passed as
`currentTime`.  If `currentTime - lastPulseTime > currentDebounceTime`
(32-bit unsigned subtraction), the edge is accepted (`acceptEdge`);
otherwise nothing happens. -/
def pulseInterrupt (currentTime : Nat) (s : SystemState) : SystemState :=
  if usub32 currentTime s.lastPulseTime > s.currentDebounceTime then
    acceptEdge currentTime s
  else s

/-- The `for (int i = 0; i < 5; i++) pulseHistory[i] = 0;` loop of the two
reset functions. -/
def clearHistory (h : List Nat) : List Nat :=
  ((((h.set 0 0).set 1 0).set 2 0).set 3 0).set 4 0

/-- `resetCounter()` restricted to the capture/debounce state (the serial
reporting and the auto-reset timer bookkeeping are outside this core). -/
def resetCounter (s : SystemState) : SystemState :=
  { pulseCount := 0
    lastPulseTime := 0
    pulseInterval := 0
    newPulseReceived := false
    currentDebounceTime := DEBOUNCE_TIME_US_DEFAULT
    pulseHistory := clearHistory s.pulseHistory
    historyIndex := 0 }

/-- `autoResetCounter()` restricted to the capture/debounce state; it clears
exactly the same fields as `resetCounter()`. -/
def autoResetCounter (s : SystemState) : SystemState :=
  { pulseCount := 0
    lastPulseTime := 0
    pulseInterval := 0
    newPulseReceived := false
    currentDebounceTime := DEBOUNCE_TIME_US_DEFAULT
    pulseHistory := clearHistory s.pulseHistory
    historyIndex := 0 }

/-- Feed a sequence of edge timestamps to the interrupt handler. -/
def processEdges (ts : List Nat) (s : SystemState) : SystemState :=
  ts.foldl (fun st t => pulseInterrupt t st) s

/-- Every edge of the sequence exceeds the debounce threshold in effect at
its own arrival (computed against the state evolved so far). -/
def allAccepted : SystemState → List Nat → Bool
  | _, [] => true
  | s, t :: ts =>
      decide (s.currentDebounceTime < usub32 t s.lastPulseTime) &&
      allAccepted (pulseInterrupt t s) ts

/-- Division instrumented to fail on a zero divisor. -/
def checkedDiv (a b : Nat) : Option Nat :=
  if b = 0 then none else some (a / b)

/-- `updateAdaptiveDebounce` with the division `sum / validCount`
instrumented by `checkedDiv`: returns `none` iff the source would divide by
zero at that point. -/
def updateAdaptiveDebounceChecked (s : SystemState) : Option SystemState :=
  if validCount s.pulseHistory ≥ 2 then
    match checkedDiv (historySum s.pulseHistory) (validCount s.pulseHistory) with
    | none => none
    | some avg =>
        let newDebounce := clampDebounce (avg / 12)
        some { s with currentDebounceTime :=
            (s.currentDebounceTime * 7 % UINT32_MOD + newDebounce * 3 % UINT32_MOD)
              % UINT32_MOD / 10 }
  else some s

/-- The documented state invariant: threshold within
`[DEBOUNCE_TIME_US_MIN, DEBOUNCE_TIME_US_MAX]` and `historyIndex` in
`[0,5)`. -/
def Inv (s : SystemState) : Prop :=
  DEBOUNCE_TIME_US_MIN ≤ s.currentDebounceTime ∧
  s.currentDebounceTime ≤ DEBOUNCE_TIME_US_MAX ∧
  s.historyIndex < 5

/-- The state used by the spec's worked recompute example: history filled
with 1000 μs and threshold 1000 μs. -/
def c1State : SystemState :=
  { initialState with
      pulseHistory := [1000, 1000, 1000, 1000, 1000]
      currentDebounceTime := 1000 }

/-- One `recompute()` step with the history filled with the fixed interval
`v`, as a function of the incoming threshold `t`: the threshold produced by
`updateAdaptiveDebounce` from that state. -/
def c8Step (v : Nat) (t : Nat) : Nat :=
  (updateAdaptiveDebounce
    { initialState with
        currentDebounceTime := t
        pulseHistory := List.replicate 5 v }).currentDebounceTime

/-!
## Helper lemmas
-/

/-- `updateAdaptiveDebounce` writes only `currentDebounceTime`; every other
field is untouched in both branches. -/
theorem updateAdaptiveDebounce_frame (s : SystemState) :
    (updateAdaptiveDebounce s).pulseCount = s.pulseCount ∧
    (updateAdaptiveDebounce s).lastPulseTime = s.lastPulseTime ∧
    (updateAdaptiveDebounce s).pulseInterval = s.pulseInterval ∧
    (updateAdaptiveDebounce s).newPulseReceived = s.newPulseReceived ∧
    (updateAdaptiveDebounce s).pulseHistory = s.pulseHistory ∧
    (updateAdaptiveDebounce s).historyIndex = s.historyIndex := by
  unfold updateAdaptiveDebounce
  split <;> exact ⟨rfl, rfl, rfl, rfl, rfl, rfl⟩

/-- A rejected edge (`interval ≤ threshold`) leaves the state untouched. -/
theorem pulseInterrupt_reject (s : SystemState) (t : Nat)
    (h : usub32 t s.lastPulseTime ≤ s.currentDebounceTime) :
    pulseInterrupt t s = s := by
  unfold pulseInterrupt
  rw [if_neg (by omega)]

/-- An accepted edge (`interval > threshold`) performs the full update. -/
theorem pulseInterrupt_accept (s : SystemState) (t : Nat)
    (h : s.currentDebounceTime < usub32 t s.lastPulseTime) :
    pulseInterrupt t s = acceptEdge t s := by
  unfold pulseInterrupt
  rw [if_pos h]

/-- Clearing the five slots of a length-5 history yields the all-zero
history. -/
theorem clearHistory_of_length_five (l : List Nat) (h : l.length = 5) :
    clearHistory l = List.replicate 5 0 := by
  rcases l with _ | ⟨a, _ | ⟨b, _ | ⟨c, _ | ⟨d, _ | ⟨e, _ | ⟨f, t⟩⟩⟩⟩⟩⟩ <;>
    simp only [List.length_cons, List.length_nil] at h
  all_goals first | rfl | omega

/-- Clearing the five history slots twice is the same as clearing them
once. -/
theorem clearHistory_clearHistory (l : List Nat) :
    clearHistory (clearHistory l) = clearHistory l := by
  rcases l with _ | ⟨a, _ | ⟨b, _ | ⟨c, _ | ⟨d, _ | ⟨e, t⟩⟩⟩⟩⟩ <;> rfl

/-- The clamped candidate always lies within the debounce bounds. -/
theorem clampDebounce_bounds (n : Nat) :
    DEBOUNCE_TIME_US_MIN ≤ clampDebounce n ∧
    clampDebounce n ≤ DEBOUNCE_TIME_US_MAX := by
  unfold clampDebounce DEBOUNCE_TIME_US_MIN DEBOUNCE_TIME_US_MAX
  by_cases h1 : n < 100
  · rw [if_pos h1]
    omega
  · rw [if_neg h1]
    by_cases h2 : n > 5000
    · rw [if_pos h2]
      omega
    · rw [if_neg h2]
      omega

/-- The 70/30 integer blend of two values in `[100, 5000]` (with the 32-bit
reductions of the source) stays in `[100, 5000]`. -/
theorem blend_bounds (a b : Nat) (ha1 : 100 ≤ a) (ha2 : a ≤ 5000)
    (hb1 : 100 ≤ b) (hb2 : b ≤ 5000) :
    100 ≤ (a * 7 % 4294967296 + b * 3 % 4294967296) % 4294967296 / 10 ∧
    (a * 7 % 4294967296 + b * 3 % 4294967296) % 4294967296 / 10 ≤ 5000 := by
  have e1 : a * 7 % 4294967296 = a * 7 := Nat.mod_eq_of_lt (by omega)
  have e2 : b * 3 % 4294967296 = b * 3 := Nat.mod_eq_of_lt (by omega)
  rw [e1, e2]
  have e3 : (a * 7 + b * 3) % 4294967296 = a * 7 + b * 3 := Nat.mod_eq_of_lt (by omega)
  rw [e3]
  omega

/-- `updateAdaptiveDebounce` keeps the threshold inside the documented
bounds: the candidate is clamped before the blend, and the blend of two
in-bounds values is in bounds. -/
theorem updateAdaptiveDebounce_threshold_bounds (s : SystemState)
    (h1 : DEBOUNCE_TIME_US_MIN ≤ s.currentDebounceTime)
    (h2 : s.currentDebounceTime ≤ DEBOUNCE_TIME_US_MAX) :
    DEBOUNCE_TIME_US_MIN ≤ (updateAdaptiveDebounce s).currentDebounceTime ∧
    (updateAdaptiveDebounce s).currentDebounceTime ≤ DEBOUNCE_TIME_US_MAX := by
  obtain ⟨hc1, hc2⟩ := clampDebounce_bounds (averageInterval s.pulseHistory / 12)
  unfold updateAdaptiveDebounce
  split
  · dsimp only
    unfold DEBOUNCE_TIME_US_MIN DEBOUNCE_TIME_US_MAX at *
    unfold UINT32_MOD
    exact blend_bounds _ _ h1 h2 hc1 hc2
  · exact ⟨h1, h2⟩

/-- The complete effect of an accepted edge on every field of the state. -/
theorem accepted_edge_effects (s : SystemState) (t : Nat)
    (h : s.currentDebounceTime < usub32 t s.lastPulseTime) :
    (pulseInterrupt t s).pulseCount = (s.pulseCount + 1) % UINT32_MOD ∧
    (pulseInterrupt t s).pulseInterval = usub32 t s.lastPulseTime ∧
    (pulseInterrupt t s).lastPulseTime = t ∧
    (pulseInterrupt t s).pulseHistory =
      s.pulseHistory.set s.historyIndex (usub32 t s.lastPulseTime) ∧
    (pulseInterrupt t s).historyIndex = (s.historyIndex + 1) % 5 ∧
    (pulseInterrupt t s).currentDebounceTime =
      (updateAdaptiveDebounce (midEdgeState t s)).currentDebounceTime ∧
    (pulseInterrupt t s).newPulseReceived = true := by
  rw [pulseInterrupt_accept s t h]
  obtain ⟨f1, f2, f3, f4, f5, f6⟩ := updateAdaptiveDebounce_frame (midEdgeState t s)
  simp only [acceptEdge, f1, f2, f3, f5, f6]
  simp [midEdgeState]

/-!
## Claim theorems
-/

/-- C1 counterexample: with history `[1000,1000,1000,1000,1000]` μs and
prior threshold 1000 μs, the average is 1000 and the raw candidate 83 is
clamped up to `DEBOUNCE_TIME_US_MIN = 100`, but the blended threshold
produced by `updateAdaptiveDebounce` is not 790 as the claim states. -/
theorem c1_blend_counterexample :
    averageInterval c1State.pulseHistory = 1000 ∧
    averageInterval c1State.pulseHistory / 12 = 83 ∧
    clampDebounce (averageInterval c1State.pulseHistory / 12) = DEBOUNCE_TIME_US_MIN ∧
    (updateAdaptiveDebounce c1State).currentDebounceTime ≠ 790 := by
  refine ⟨by decide, by decide, by decide, by decide⟩

/-- C1 (amended): with history `[1000,1000,1000,1000,1000]` μs and prior
threshold 1000 μs, the average is 1000, the raw candidate is 83, it is
clamped up to `DEBOUNCE_TIME_US_MIN = 100`, and the blended threshold is
`(1000*7 + 100*3)/10 = 730`. -/
theorem c1_recompute_example :
    averageInterval c1State.pulseHistory = 1000 ∧
    averageInterval c1State.pulseHistory / 12 = 83 ∧
    clampDebounce (averageInterval c1State.pulseHistory / 12) = DEBOUNCE_TIME_US_MIN ∧
    (updateAdaptiveDebounce c1State).currentDebounceTime =
      (1000 * 7 + DEBOUNCE_TIME_US_MIN * 3) / 10 ∧
    (1000 * 7 + DEBOUNCE_TIME_US_MIN * 3) / 10 = 730 := by
  refine ⟨by decide, by decide, by decide, by decide, by decide⟩

/-- C2 counterexample: in the initial state `lastPulseTime` is the zero
sentinel, yet an edge at 500 μs (interval 500 ≤ threshold 1000) is
discarded — the state is unchanged and the counter stays 0, so the code has
no "accept regardless of interval when the sentinel is zero" rule. -/
theorem c2_zero_sentinel_counterexample :
    initialState.lastPulseTime = 0 ∧
    usub32 500 initialState.lastPulseTime ≤ initialState.currentDebounceTime ∧
    pulseInterrupt 500 initialState = initialState ∧
    (pulseInterrupt 500 initialState).pulseCount = 0 := by
  refine ⟨by decide, by decide, by decide, by decide⟩

/-- C2 (amended): `pulseInterrupt` gives the zero sentinel no special
treatment.  For every state — including `lastPulseTime = 0` — the edge is
discarded (state untouched) exactly when the 32-bit interval is at most
`currentDebounceTime`, and accepted (counter incremented, flag raised)
exactly when the interval exceeds it. -/
theorem c2_no_sentinel_exception (s : SystemState) (t : Nat) :
    (usub32 t s.lastPulseTime ≤ s.currentDebounceTime → pulseInterrupt t s = s) ∧
    (s.currentDebounceTime < usub32 t s.lastPulseTime →
      (pulseInterrupt t s).pulseCount = (s.pulseCount + 1) % UINT32_MOD ∧
      (pulseInterrupt t s).newPulseReceived = true) := by
  constructor
  · exact pulseInterrupt_reject s t
  · intro h
    rw [pulseInterrupt_accept s t h]
    refine ⟨?_, rfl⟩
    show ((updateAdaptiveDebounce (midEdgeState t s)).pulseCount + 1) % UINT32_MOD
        = (s.pulseCount + 1) % UINT32_MOD
    rw [(updateAdaptiveDebounce_frame (midEdgeState t s)).1]
    rfl

/-- C2 witness: the amended equivalence applied to the initial state with an
edge at 2000 μs (interval 2000 > threshold 1000): the edge is accepted. -/
theorem c2_no_sentinel_exception_witness :
    (pulseInterrupt 2000 initialState).pulseCount =
      (initialState.pulseCount + 1) % UINT32_MOD ∧
    (pulseInterrupt 2000 initialState).newPulseReceived = true :=
  (c2_no_sentinel_exception initialState 2000).2 (by decide)

/-- C4: for every call of `pulseInterrupt` whose 32-bit interval since the
previous accepted edge is in `[0, currentDebounceTime]`, the entire
capture/debounce state — counter, timestamps, interval, flag, history,
index and threshold — is unchanged. -/
theorem c4_bounce_leaves_state_unchanged (s : SystemState) (t : Nat)
    (h : usub32 t s.lastPulseTime ≤ s.currentDebounceTime) :
    pulseInterrupt t s = s :=
  pulseInterrupt_reject s t h

/-- C4 witness: an edge at 500 μs against the initial state (interval 500 ≤
threshold 1000) leaves the state untouched. -/
theorem c4_bounce_leaves_state_unchanged_witness :
    pulseInterrupt 500 initialState = initialState :=
  c4_bounce_leaves_state_unchanged initialState 500 (by decide)

/-- C7: whenever fewer than 2 history slots are non-zero, `recompute`
leaves the threshold exactly as it was, for any history contents and any
prior threshold. -/
theorem c7_insufficient_samples_keep_threshold (s : SystemState)
    (h : validCount s.pulseHistory < 2) :
    (updateAdaptiveDebounce s).currentDebounceTime = s.currentDebounceTime := by
  unfold updateAdaptiveDebounce
  rw [if_neg (by omega)]

/-- C7 witness: on the all-zero initial history (`validCount = 0`) the
threshold is unchanged by `recompute`. -/
theorem c7_insufficient_samples_keep_threshold_witness :
    (updateAdaptiveDebounce initialState).currentDebounceTime =
      initialState.currentDebounceTime :=
  c7_insufficient_samples_keep_threshold initialState (by decide)

/-- C9: both reset entry points are idempotent on the capture/debounce
state: applying the reset twice yields exactly the state of applying it
once, for every prior state. -/
theorem c9_reset_idempotent (s : SystemState) :
    resetCounter (resetCounter s) = resetCounter s ∧
    autoResetCounter (autoResetCounter s) = autoResetCounter s ∧
    autoResetCounter (resetCounter s) = resetCounter s := by
  refine ⟨?_, ?_, ?_⟩ <;>
    simp [resetCounter, autoResetCounter, clearHistory_clearHistory]

/-- C10: the division `sum / validCount` in `recompute` sits under the
guard `validCount >= 2`; instrumenting exactly that division with a
zero-divisor check never fails, so the embedded function is total. -/
theorem c10_guarded_division_never_fails (s : SystemState) :
    updateAdaptiveDebounceChecked s = some (updateAdaptiveDebounce s) := by
  unfold updateAdaptiveDebounceChecked updateAdaptiveDebounce checkedDiv averageInterval
  split
  case isTrue h =>
    rw [if_neg (by omega)]
  case isFalse h =>
    rfl

/-- C6: after either reset entry point, from any prior state with its
5-slot history: counter, timestamp and interval are zero, the flag is
cleared, the threshold is back at `DEBOUNCE_TIME_US_DEFAULT`, the write
index is 0 and every history slot is zero. -/
theorem c6_reset_postcondition (s : SystemState) (h : s.pulseHistory.length = 5) :
    (resetCounter s).pulseCount = 0 ∧
    (resetCounter s).lastPulseTime = 0 ∧
    (resetCounter s).pulseInterval = 0 ∧
    (resetCounter s).newPulseReceived = false ∧
    (resetCounter s).currentDebounceTime = DEBOUNCE_TIME_US_DEFAULT ∧
    (resetCounter s).historyIndex = 0 ∧
    (∀ x ∈ (resetCounter s).pulseHistory, x = 0) ∧
    autoResetCounter s = resetCounter s := by
  refine ⟨rfl, rfl, rfl, rfl, rfl, rfl, ?_, rfl⟩
  intro x hx
  have hh : (resetCounter s).pulseHistory = List.replicate 5 0 :=
    clearHistory_of_length_five s.pulseHistory h
  rw [hh] at hx
  exact List.eq_of_mem_replicate hx

/-- C6 witness: the reset postcondition instantiated at the initial
state. -/
theorem c6_reset_postcondition_witness :
    (resetCounter initialState).pulseCount = 0 ∧
    (resetCounter initialState).lastPulseTime = 0 ∧
    (resetCounter initialState).pulseInterval = 0 ∧
    (resetCounter initialState).newPulseReceived = false ∧
    (resetCounter initialState).currentDebounceTime = DEBOUNCE_TIME_US_DEFAULT ∧
    (resetCounter initialState).historyIndex = 0 ∧
    (∀ x ∈ (resetCounter initialState).pulseHistory, x = 0) ∧
    autoResetCounter initialState = resetCounter initialState :=
  c6_reset_postcondition initialState (by decide)

/-- C3: each of the three operations — `pulseInterrupt`, recompute and
reset — preserves the invariant that the threshold stays within
`[DEBOUNCE_TIME_US_MIN, DEBOUNCE_TIME_US_MAX]` and the write index within
`[0,5)`. -/
theorem c3_invariant_preserved (s : SystemState) (t : Nat) (h : Inv s) :
    Inv (pulseInterrupt t s) ∧ Inv (updateAdaptiveDebounce s) ∧ Inv (resetCounter s) := by
  obtain ⟨h1, h2, h3⟩ := h
  have hu := updateAdaptiveDebounce_threshold_bounds s h1 h2
  have hui := (updateAdaptiveDebounce_frame s).2.2.2.2.2
  have hreset : Inv (resetCounter s) := by
    refine ⟨?_, ?_, ?_⟩
    · show DEBOUNCE_TIME_US_MIN ≤ DEBOUNCE_TIME_US_DEFAULT
      decide
    · show DEBOUNCE_TIME_US_DEFAULT ≤ DEBOUNCE_TIME_US_MAX
      decide
    · show (0 : Nat) < 5
      decide
  refine ⟨?_, ⟨hu.1, hu.2, by rw [hui]; exact h3⟩, hreset⟩
  by_cases hc : s.currentDebounceTime < usub32 t s.lastPulseTime
  · rw [pulseInterrupt_accept s t hc]
    have hb := updateAdaptiveDebounce_threshold_bounds (midEdgeState t s) h1 h2
    refine ⟨hb.1, hb.2, ?_⟩
    show (updateAdaptiveDebounce (midEdgeState t s)).historyIndex < 5
    rw [(updateAdaptiveDebounce_frame (midEdgeState t s)).2.2.2.2.2]
    show (s.historyIndex + 1) % 5 < 5
    exact Nat.mod_lt _ (by norm_num)
  · rw [pulseInterrupt_reject s t (by omega)]
    exact ⟨h1, h2, h3⟩

/-- C3 witness: the invariant preservation applied to the initial state and
an edge at 2000 μs. -/
theorem c3_invariant_preserved_witness :
    Inv (pulseInterrupt 2000 initialState) ∧
    Inv (updateAdaptiveDebounce initialState) ∧
    Inv (resetCounter initialState) :=
  c3_invariant_preserved initialState 2000 ⟨by decide, by decide, by decide⟩

/-- C5: an accepted edge (interval strictly above the threshold in effect)
increments the counter by exactly 1, records the interval and the
timestamp, overwrites the history slot at the write index, advances the
index modulo 5, recomputes the threshold and raises the pending flag; and
over any all-accepted edge sequence the counter grows by exactly the number
of edges. -/
theorem c5_accepted_edges (s : SystemState) :
    (∀ t : Nat,
      s.currentDebounceTime < usub32 t s.lastPulseTime →
        (pulseInterrupt t s).pulseCount = (s.pulseCount + 1) % UINT32_MOD ∧
        (pulseInterrupt t s).pulseInterval = usub32 t s.lastPulseTime ∧
        (pulseInterrupt t s).lastPulseTime = t ∧
        (pulseInterrupt t s).pulseHistory =
          s.pulseHistory.set s.historyIndex (usub32 t s.lastPulseTime) ∧
        (pulseInterrupt t s).historyIndex = (s.historyIndex + 1) % 5 ∧
        (pulseInterrupt t s).currentDebounceTime =
          (updateAdaptiveDebounce (midEdgeState t s)).currentDebounceTime ∧
        (pulseInterrupt t s).newPulseReceived = true) ∧
    (∀ ts : List Nat,
      s.pulseCount < UINT32_MOD → allAccepted s ts = true →
        (processEdges ts s).pulseCount = (s.pulseCount + ts.length) % UINT32_MOD) := by
  constructor
  · exact fun t ht => accepted_edge_effects s t ht
  · intro ts
    induction ts generalizing s with
    | nil =>
        intro hlt _
        show s.pulseCount = (s.pulseCount + List.length []) % UINT32_MOD
        unfold UINT32_MOD at *
        simp only [List.length_nil]
        omega
    | cons t ts ih =>
        intro hlt hacc
        simp only [allAccepted, Bool.and_eq_true, decide_eq_true_eq] at hacc
        obtain ⟨hc, hrest⟩ := hacc
        have hpc := (accepted_edge_effects s t hc).1
        have hstep : (pulseInterrupt t s).pulseCount < UINT32_MOD := by
          rw [hpc]
          unfold UINT32_MOD
          omega
        have hih := ih (pulseInterrupt t s) hstep hrest
        show (processEdges ts (pulseInterrupt t s)).pulseCount =
          (s.pulseCount + List.length (t :: ts)) % UINT32_MOD
        rw [hih, hpc]
        simp only [List.length_cons]
        unfold UINT32_MOD
        omega

/-- C5 witness: from the initial state, the edge sequence `[2000, 9000]` is
all-accepted and the counter grows by 2; the first edge alone shows the
full per-edge effect on the counter. -/
theorem c5_accepted_edges_witness :
    (pulseInterrupt 2000 initialState).pulseCount =
      (initialState.pulseCount + 1) % UINT32_MOD ∧
    (processEdges [2000, 9000] initialState).pulseCount =
      (initialState.pulseCount + List.length [2000, 9000]) % UINT32_MOD :=
  ⟨((c5_accepted_edges initialState).1 2000 (by decide)).1,
   (c5_accepted_edges initialState).2 [2000, 9000] (by decide) (by decide)⟩

/-!
## Fixed-interval dynamics of the threshold (for the convergence claim)
-/

/-- Filtering a history of five copies of a positive value keeps all five
entries. -/
theorem filter_pos_replicate_five (k : Nat) :
    List.filter (fun x => decide (0 < x)) (List.replicate 5 (k + 1))
      = List.replicate 5 (k + 1) := by
  have hd : decide (0 < k + 1) = true := decide_eq_true (Nat.succ_pos k)
  show List.filter (fun x => decide (0 < x)) [k+1, k+1, k+1, k+1, k+1]
      = [k+1, k+1, k+1, k+1, k+1]
  simp [hd]

/-- A history of five copies of a positive value has five valid samples. -/
theorem validCount_replicate_five (v : Nat) (hv : 0 < v) :
    validCount (List.replicate 5 v) = 5 := by
  obtain ⟨k, rfl⟩ : ∃ k, v = k + 1 := ⟨v - 1, by omega⟩
  unfold validCount
  rw [filter_pos_replicate_five k]
  rfl

/-- The 32-bit running sum over five copies of `v` is `5 * v` when that
product does not wrap. -/
theorem historySum_replicate_five (v : Nat) (hv : 0 < v) (hov : 5 * v < UINT32_MOD) :
    historySum (List.replicate 5 v) = 5 * v := by
  obtain ⟨k, rfl⟩ : ∃ k, v = k + 1 := ⟨v - 1, by omega⟩
  unfold historySum
  rw [filter_pos_replicate_five k, List.sum_replicate]
  simp only [smul_eq_mul]
  exact Nat.mod_eq_of_lt hov

/-- The average of five copies of `v` is `v` itself. -/
theorem averageInterval_replicate_five (v : Nat) (hv : 0 < v)
    (hov : 5 * v < UINT32_MOD) :
    averageInterval (List.replicate 5 v) = v := by
  unfold averageInterval
  rw [validCount_replicate_five v hv, historySum_replicate_five v hv hov]
  omega

/-- On a history of five copies of `v`, one recompute step maps threshold
`t` to the pure 70/30 blend with the clamped candidate `clampDebounce (v / 12)`
(the 32-bit reductions are inert for in-range thresholds). -/
theorem c8Step_eq (v t : Nat) (hv : 0 < v) (hov : 5 * v < UINT32_MOD)
    (ht : t ≤ DEBOUNCE_TIME_US_MAX) :
    c8Step v t = (t * 7 + clampDebounce (v / 12) * 3) / 10 := by
  have hc := clampDebounce_bounds (v / 12)
  unfold c8Step updateAdaptiveDebounce
  simp only [validCount_replicate_five v hv, averageInterval_replicate_five v hv hov]
  rw [if_pos (by norm_num)]
  dsimp only
  unfold DEBOUNCE_TIME_US_MAX at ht hc
  unfold DEBOUNCE_TIME_US_MIN at hc
  unfold UINT32_MOD
  have e1 : t * 7 % 4294967296 = t * 7 := Nat.mod_eq_of_lt (by omega)
  have e2 : clampDebounce (v / 12) * 3 % 4294967296 = clampDebounce (v / 12) * 3 :=
    Nat.mod_eq_of_lt (by omega)
  rw [e1, e2, Nat.mod_eq_of_lt (by omega)]

/-- From above the clamped candidate, the iterated recompute step reaches
the candidate exactly, in at most `t - candidate` steps. -/
theorem c8_descend (v : Nat) (hv : 0 < v) (hov : 5 * v < UINT32_MOD) :
    ∀ k t, clampDebounce (v / 12) ≤ t → t ≤ DEBOUNCE_TIME_US_MAX →
      t ≤ clampDebounce (v / 12) + k →
      (c8Step v)^[k] t = clampDebounce (v / 12) := by
  intro k
  induction k with
  | zero =>
      intro t h1 h2 h3
      simp only [Function.iterate_zero_apply]
      omega
  | succ k ih =>
      intro t h1 h2 h3
      rw [Function.iterate_succ_apply]
      have hc := clampDebounce_bounds (v / 12)
      have heq := c8Step_eq v t hv hov h2
      by_cases hct : t = clampDebounce (v / 12)
      · have hfix : c8Step v t = t := by
          rw [heq, hct]
          omega
        rw [hfix]
        exact ih t h1 h2 (by omega)
      · have hlt : clampDebounce (v / 12) < t := by omega
        have hdec : c8Step v t < t := by
          rw [heq]
          omega
        have h1' : clampDebounce (v / 12) ≤ c8Step v t := by
          rw [heq]
          omega
        have h2' : c8Step v t ≤ DEBOUNCE_TIME_US_MAX := by omega
        exact ih _ h1' h2' (by omega)

/-- From below the clamped candidate, the iterated recompute step reaches,
in at most `candidate - t` steps, a fixed point lying within the integer
truncation neighbourhood `[candidate - 3, candidate]`. -/
theorem c8_ascend (v : Nat) (hv : 0 < v) (hov : 5 * v < UINT32_MOD) :
    ∀ k t, t ≤ clampDebounce (v / 12) → clampDebounce (v / 12) ≤ t + 3 + k →
      (c8Step v)^[k] t ≤ clampDebounce (v / 12) ∧
      clampDebounce (v / 12) ≤ (c8Step v)^[k] t + 3 ∧
      c8Step v ((c8Step v)^[k] t) = (c8Step v)^[k] t := by
  intro k
  induction k with
  | zero =>
      intro t h1 h2
      simp only [Function.iterate_zero_apply]
      have hc := clampDebounce_bounds (v / 12)
      have heq := c8Step_eq v t hv hov (le_trans h1 hc.2)
      refine ⟨h1, by omega, ?_⟩
      rw [heq]
      omega
  | succ k ih =>
      intro t h1 h2
      have hc := clampDebounce_bounds (v / 12)
      have heq := c8Step_eq v t hv hov (le_trans h1 hc.2)
      rw [Function.iterate_succ_apply]
      by_cases hnear : clampDebounce (v / 12) ≤ t + 3
      · have hfix : c8Step v t = t := by
          rw [heq]
          omega
        rw [hfix]
        exact ih t h1 (by omega)
      · have hlb : t + 1 ≤ c8Step v t := by
          rw [heq]
          omega
        have hub : c8Step v t ≤ clampDebounce (v / 12) := by
          rw [heq]
          omega
        exact ih (c8Step v t) hub (by omega)

/-- C8: with the history filled with a fixed interval `v` (no 32-bit wrap
in its sum) and a starting threshold in bounds, the successive recompute
thresholds are monotone — non-increasing when starting at or above the
clamped candidate `clampDebounce (v / 12)`, non-decreasing when starting at
or below it — and eventually constant at a value equal to the clamped
candidate or within its integer-truncation neighbourhood (at most 3
below). -/
theorem c8_threshold_monotone_convergence (v t0 : Nat) (hv : 0 < v)
    (hov : 5 * v < UINT32_MOD)
    (hlo : DEBOUNCE_TIME_US_MIN ≤ t0) (hhi : t0 ≤ DEBOUNCE_TIME_US_MAX) :
    (clampDebounce (v / 12) ≤ t0 →
      ∀ n, (c8Step v)^[n + 1] t0 ≤ (c8Step v)^[n] t0 ∧
        clampDebounce (v / 12) ≤ (c8Step v)^[n] t0) ∧
    (t0 ≤ clampDebounce (v / 12) →
      ∀ n, (c8Step v)^[n] t0 ≤ (c8Step v)^[n + 1] t0 ∧
        (c8Step v)^[n] t0 ≤ clampDebounce (v / 12)) ∧
    (∃ N, ∀ n, N ≤ n →
      (c8Step v)^[n] t0 = (c8Step v)^[N] t0 ∧
      clampDebounce (v / 12) ≤ (c8Step v)^[N] t0 + 3 ∧
      (c8Step v)^[N] t0 ≤ clampDebounce (v / 12)) := by
  clear hlo
  have hc := clampDebounce_bounds (v / 12)
  have invA : clampDebounce (v / 12) ≤ t0 →
      ∀ n, clampDebounce (v / 12) ≤ (c8Step v)^[n] t0 ∧
        (c8Step v)^[n] t0 ≤ DEBOUNCE_TIME_US_MAX := by
    intro h0 n
    induction n with
    | zero => exact ⟨h0, hhi⟩
    | succ n ih =>
        rw [Function.iterate_succ_apply']
        have heq := c8Step_eq v _ hv hov ih.2
        rw [heq]
        unfold DEBOUNCE_TIME_US_MAX at *
        unfold DEBOUNCE_TIME_US_MIN at hc
        omega
  have invB : t0 ≤ clampDebounce (v / 12) →
      ∀ n, (c8Step v)^[n] t0 ≤ clampDebounce (v / 12) := by
    intro h0 n
    induction n with
    | zero => exact h0
    | succ n ih =>
        rw [Function.iterate_succ_apply']
        have heq := c8Step_eq v _ hv hov (le_trans ih hc.2)
        rw [heq]
        omega
  refine ⟨?_, ?_, ?_⟩
  · intro h0 n
    have hn := invA h0 n
    have heq := c8Step_eq v _ hv hov hn.2
    rw [Function.iterate_succ_apply', heq]
    constructor
    · omega
    · exact hn.1
  · intro h0 n
    have hn := invB h0 n
    have heq := c8Step_eq v _ hv hov (le_trans hn hc.2)
    rw [Function.iterate_succ_apply', heq]
    constructor
    · omega
    · exact hn
  · rcases le_total (clampDebounce (v / 12)) t0 with hcase | hcase
    · refine ⟨t0 - clampDebounce (v / 12), ?_⟩
      have hN := c8_descend v hv hov (t0 - clampDebounce (v / 12)) t0 hcase hhi (by omega)
      have hfixc : c8Step v (clampDebounce (v / 12)) = clampDebounce (v / 12) := by
        rw [c8Step_eq v _ hv hov hc.2]
        omega
      intro n hn
      rw [hN]
      have hsplit : (c8Step v)^[n] t0
          = (c8Step v)^[n - (t0 - clampDebounce (v / 12))]
              ((c8Step v)^[t0 - clampDebounce (v / 12)] t0) := by
        rw [← Function.iterate_add_apply]
        congr 1
        omega
      rw [hsplit, hN, Function.iterate_fixed hfixc]
      omega
    · refine ⟨clampDebounce (v / 12) - t0, ?_⟩
      have hB := c8_ascend v hv hov (clampDebounce (v / 12) - t0) t0 hcase (by omega)
      intro n hn
      have hsplit : (c8Step v)^[n] t0
          = (c8Step v)^[n - (clampDebounce (v / 12) - t0)]
              ((c8Step v)^[clampDebounce (v / 12) - t0] t0) := by
        rw [← Function.iterate_add_apply]
        congr 1
        omega
      rw [hsplit, Function.iterate_fixed hB.2.2]
      exact ⟨rfl, hB.2.1, hB.1⟩

/-- C8 witness: fixed interval 1200 μs (candidate `clampDebounce 100 = 100`)
and starting threshold 1000 μs: monotone descent to the stable value. -/
theorem c8_threshold_monotone_convergence_witness :
    (clampDebounce (1200 / 12) ≤ 1000 →
      ∀ n, (c8Step 1200)^[n + 1] 1000 ≤ (c8Step 1200)^[n] 1000 ∧
        clampDebounce (1200 / 12) ≤ (c8Step 1200)^[n] 1000) ∧
    (1000 ≤ clampDebounce (1200 / 12) →
      ∀ n, (c8Step 1200)^[n] 1000 ≤ (c8Step 1200)^[n + 1] 1000 ∧
        (c8Step 1200)^[n] 1000 ≤ clampDebounce (1200 / 12)) ∧
    (∃ N, ∀ n, N ≤ n →
      (c8Step 1200)^[n] 1000 = (c8Step 1200)^[N] 1000 ∧
      clampDebounce (1200 / 12) ≤ (c8Step 1200)^[N] 1000 + 3 ∧
      (c8Step 1200)^[N] 1000 ≤ clampDebounce (1200 / 12)) :=
  c8_threshold_monotone_convergence 1200 1000 (by decide) (by decide)
    (by decide) (by decide)

end LeituraPulsos
